import Mathlib

/-!
Verification of `task_1.py`: a map/reduce script computing the mean and
standard deviation of the `movieIMDbRating` field extracted from a
collection of JSON documents.

Shallow embedding conventions:
* Python `float` values are modelled as exact rationals `ℚ` (exact
  arithmetic); the final `variance ** 0.5` is modelled over `ℝ`/`ℂ`.
* Python `**` on a float base: for a non-negative base and exponent `0.5`
  it computes the real square root; for a negative base and exponent `0.5`
  it does NOT raise — it returns the complex principal square root
  (`sqrt (-x) * i` in exact arithmetic).  `pyPowHalf` captures this.
* `mapper` in the source is a generator function whose body yields
  exactly one tuple `(1, score, score**2)`; as a component (consumed by
  iterating the generator) it is modelled as a function returning that
  one record (or the Python exception its body can raise).
* The orchestration, however, never consumes those generators: each
  `ProcessPoolExecutor` worker returns the generator object itself,
  which cannot be pickled, so collecting the results of
  `executor.map(mapper, files)` raises
  `TypeError: cannot pickle 'generator' object` for every non-empty
  file list, before any file is opened.  `mapFiles` models exactly this.
* The surrounding file system and JSON parsing are modelled abstractly:
  a `FileSys` maps a path to what `open` + `json.load` produce for it
  (missing file, unparseable content, or a parsed string-keyed object),
  and a field value either coerces to a float or makes `float(...)` raise.
* Fallible Python code is embedded as `Except PyError`; `PyError` mirrors
  the concrete exception classes the script can raise, carrying exactly
  the identifying payload the corresponding Python exception message
  carries (only `FileNotFoundError` includes the offending path).
-/

/-- A value stored under a key of a parsed JSON object, abstracted by how
Python's `float(...)` behaves on it: either it coerces to a float value,
or `float(...)` raises (`ValueError`/`TypeError`). -/
inductive PyVal : Type
  | coercible (v : ℚ)
  | nonCoercible
deriving DecidableEq

/-- What `open(path)` followed by `json.load(f)` produces for a path:
the file may be missing, its content may fail to parse as JSON, or it
parses to a string-keyed object. -/
inductive LoadResult : Type
  | missing
  | unparseable
  | parsed (info : List (String × PyVal))
deriving DecidableEq

/-- An abstract file system: what loading and JSON-parsing each path yields. -/
def FileSys : Type := String → LoadResult

/-- The exceptions the script can raise, with the payload their Python
message carries.  `FileNotFoundError` is the only one whose message
includes the offending file path; `JSONDecodeError` reports a position
inside the document, `KeyError` reports the missing key, the
`float(...)` `ValueError` reports the unconvertible value, and
`TypeError` — raised when a worker tries to pickle its result, a
generator object — carries only the message
`cannot pickle 'generator' object`.  None of these mentions a file
path except `FileNotFoundError`. -/
inductive PyError : Type
  | fileNotFound (path : String)
  | jsonDecodeError
  | keyError (key : String)
  | valueError
  | zeroDivisionError
  | typeError
deriving DecidableEq

/-- The extracted record type: `(count, score, score_squared)`.
`count` is a Python int, the other two are floats. -/
def Record : Type := ℤ × ℚ × ℚ

/-- `mapper(path)` from `task_1.py` lines 6–19:
opens `path`, parses it as JSON, reads `info['movieIMDbRating']`,
coerces it with `float(...)`, and yields the single record
`(1, score, score**2)`.  Each failing step raises the corresponding
Python exception, modelled as `Except.error`. -/
def mapper (fs : FileSys) (path : String) : Except PyError Record :=
  match fs path with
  | .missing => .error (.fileNotFound path)
  | .unparseable => .error .jsonDecodeError
  | .parsed info =>
    match info.lookup "movieIMDbRating" with
    | none => .error (.keyError "movieIMDbRating")
    | some .nonCoercible => .error .valueError
    | some (.coercible score) => .ok (1, score, score ^ 2)

/-- The accumulation loop of `reducer` (`task_1.py` lines 23–27):
starting from `n, sum_score, sum_score_squared = 0, 0.0, 0.0`, for each
record `(count, score, score_squared)` it adds `count` to `n`, `score`
to `sum_score` and `score_squared` to `sum_score_squared`. -/
def reducerAcc (data : List Record) : ℤ × ℚ × ℚ :=
  data.foldl (fun acc r => (acc.1 + r.1, acc.2.1 + r.2.1, acc.2.2 + r.2.2))
    (0, 0, 0)

/-- Python's `x ** 0.5` on a real (float) base `x`: the real square root
when `0 ≤ x`, and the complex principal square root `sqrt (-x) * i`
when `x < 0` (Python 3 returns a `complex`, it does not raise). -/
noncomputable def pyPowHalf (x : ℝ) : ℂ :=
  if 0 ≤ x then ((Real.sqrt x : ℝ) : ℂ)
  else ((Real.sqrt (-x) : ℝ) : ℂ) * Complex.I

/-- `reducer(data)` from `task_1.py` lines 22–30: folds the records into
`(n, sum_score, sum_score_squared)`, then computes
`mean = sum_score / n`, `variance = sum_score_squared / n - mean ** 2`
and returns `(mean, variance ** 0.5)`.  When `n = 0`, the division
`sum_score / n` raises `ZeroDivisionError`. -/
noncomputable def reducer (data : List Record) : Except PyError (ℚ × ℂ) :=
  let acc := reducerAcc data
  if acc.1 = 0 then .error .zeroDivisionError
  else
    let mean : ℚ := acc.2.1 / (acc.1 : ℚ)
    let variance : ℚ := acc.2.2 / (acc.1 : ℚ) - mean ^ 2
    .ok (mean, pyPowHalf (variance : ℝ))

/-- The count accumulated by `reducer`: the sum of the records' `count`s. -/
def sumCounts (data : List Record) : ℤ := (data.map (fun r => r.1)).sum

/-- The score sum accumulated by `reducer`. -/
def sumScores (data : List Record) : ℚ := (data.map (fun r => r.2.1)).sum

/-- The squared-score sum accumulated by `reducer`. -/
def sumSquares (data : List Record) : ℚ := (data.map (fun r => r.2.2)).sum

/-- The mean `reducer` computes (meaningful when `sumCounts data ≠ 0`). -/
def meanOf (data : List Record) : ℚ := sumScores data / (sumCounts data : ℚ)

/-- The variance `reducer` computes before the square root. -/
def varianceOf (data : List Record) : ℚ :=
  sumSquares data / (sumCounts data : ℚ) - meanOf data ^ 2

/-- The map phase of the orchestration (`task_1.py` lines 40–41).
`mapper` is a generator function, so each worker call `mapper(path)`
only creates a generator object without running the body — no file is
ever opened.  Sending that object back from the `ProcessPoolExecutor`
worker requires pickling it, which raises
`TypeError: cannot pickle 'generator' object`; the exception is
re-raised in the parent when the results are iterated.  Hence the map
phase delivers no records: an empty file list produces the empty record
list, and a non-empty one raises `TypeError`, regardless of the file
system's contents. -/
def mapFiles : List String → Except PyError (List Record)
  | [] => .ok []
  | _ :: _ => .error .typeError

/-- The whole pipeline of `task_1.py` lines 40–44: the map phase
followed by `reducer` on whatever it delivers.  The file-system
argument does not influence the outcome because the pooled run fails
before any worker opens a file; only the emptiness of the file list
matters. -/
noncomputable def runPipeline (_fs : FileSys) (files : List String) :
    Except PyError (ℚ × ℂ) := do
  let records ← mapFiles files
  reducer records

/-- The spec's reduce algorithm, stated in its own words (for refinement
comparison): `n` the sum of the counts, `S` the sum of the values, `Q`
the sum of the squared values; `mean = S / n`,
`stddev = sqrt (Q / n - mean ^ 2)` (a real square root). -/
noncomputable def specReduce (data : List Record) : ℚ × ℝ :=
  let n : ℚ := (sumCounts data : ℚ)
  let S : ℚ := sumScores data
  let Q : ℚ := sumSquares data
  (S / n, Real.sqrt ((Q / n - (S / n) ^ 2 : ℚ) : ℝ))

/-- A record of the shape the mapper produces: count `1` and a squared
value that is the square of the value. -/
def WellFormedRecord (r : Record) : Prop :=
  r.1 = 1 ∧ r.2.2 = r.2.1 * r.2.1

/-- Whether a Python exception's message identifies a given file: of the
exceptions this script can raise, only `FileNotFoundError` carries the
offending path (JSON decode errors carry a position in the text, key
errors carry the key, float-conversion errors carry the value). -/
def errorNamesFile (e : PyError) (p : String) : Prop := e = .fileNotFound p

instance (e : PyError) (p : String) : Decidable (errorNamesFile e p) := by
  unfold errorNamesFile
  infer_instance

/-- The condition under which `mapper` fails on a path: the file is
missing, its content is not parseable as JSON, the parsed object lacks
the `movieIMDbRating` field, or that field is not coercible to a float. -/
def badInput (fs : FileSys) (path : String) : Prop :=
  fs path = .missing ∨ fs path = .unparseable ∨
    ∃ info, fs path = .parsed info ∧
      (info.lookup "movieIMDbRating" = none ∨
        info.lookup "movieIMDbRating" = some .nonCoercible)

/-- A parsed document whose rating field coerces to the float `v`. -/
def ratingDoc (v : ℚ) : LoadResult :=
  .parsed [("movieIMDbRating", .coercible v)]

/-- A concrete file system holding the eight textbook documents with
ratings `[2, 4, 4, 4, 5, 5, 7, 9]`. -/
def fs8 : FileSys := fun p =>
  if p = "d1" then ratingDoc 2
  else if p = "d2" then ratingDoc 4
  else if p = "d3" then ratingDoc 4
  else if p = "d4" then ratingDoc 4
  else if p = "d5" then ratingDoc 5
  else if p = "d6" then ratingDoc 5
  else if p = "d7" then ratingDoc 7
  else if p = "d8" then ratingDoc 9
  else .missing

/-- The eight textbook document paths. -/
def files8 : List String := ["d1", "d2", "d3", "d4", "d5", "d6", "d7", "d8"]

/-- The records the mapper emits for the eight textbook documents. -/
def records8 : List Record :=
  [(1, 2, (2 : ℚ) ^ 2), (1, 4, (4 : ℚ) ^ 2), (1, 4, (4 : ℚ) ^ 2),
    (1, 4, (4 : ℚ) ^ 2), (1, 5, (5 : ℚ) ^ 2), (1, 5, (5 : ℚ) ^ 2),
    (1, 7, (7 : ℚ) ^ 2), (1, 9, (9 : ℚ) ^ 2)]

/-- A concrete file system with one valid document (`good`) and one
document that parses but lacks the rating field (`bad`). -/
def fs9 : FileSys := fun p =>
  if p = "good" then ratingDoc 5 else .parsed []

-- Basic lemmas about the fold.

lemma reducerAcc_go (data : List Record) (a : ℤ × ℚ × ℚ) :
    data.foldl (fun acc r => (acc.1 + r.1, acc.2.1 + r.2.1, acc.2.2 + r.2.2)) a
      = (a.1 + sumCounts data, a.2.1 + sumScores data, a.2.2 + sumSquares data) := by
  induction data generalizing a with
  | nil => simp [sumCounts, sumScores, sumSquares]
  | cons r t ih =>
    simp only [List.foldl_cons, ih, sumCounts, sumScores, sumSquares,
      List.map_cons, List.sum_cons]
    refine Prod.ext ?_ (Prod.ext ?_ ?_) <;> simp <;> ring

lemma reducerAcc_eq_sums (data : List Record) :
    reducerAcc data = (sumCounts data, sumScores data, sumSquares data) := by
  simpa using reducerAcc_go data (0, 0, 0)

lemma reducer_eq_ok (data : List Record) (h : sumCounts data ≠ 0) :
    reducer data = .ok (meanOf data, pyPowHalf ((varianceOf data : ℚ) : ℝ)) := by
  unfold reducer meanOf varianceOf
  rw [reducerAcc_eq_sums]
  simp [h]
  congr 1
  push_cast [meanOf]
  ring

lemma reducer_empty : reducer [] = .error .zeroDivisionError := by
  unfold reducer
  simp [reducerAcc_eq_sums, sumCounts]

lemma pyPowHalf_of_nonneg {x : ℝ} (h : 0 ≤ x) :
    pyPowHalf x = ((Real.sqrt x : ℝ) : ℂ) := by
  simp [pyPowHalf, h]

lemma pyPowHalf_of_neg {x : ℝ} (h : x < 0) :
    pyPowHalf x = ((Real.sqrt (-x) : ℝ) : ℂ) * Complex.I := by
  simp [pyPowHalf, not_le.mpr h]

lemma sum_sq_nonneg (vs : List ℚ) : 0 ≤ (vs.map (fun x => x * x)).sum := by
  induction vs with
  | nil => simp
  | cons a t ih =>
    simp only [List.map_cons, List.sum_cons]
    nlinarith [mul_self_nonneg a]

/-- Cauchy–Schwarz for a list of rationals: `(∑ v)² ≤ n · ∑ v²`. -/
lemma sq_sum_le_length_mul_sum_sq (vs : List ℚ) :
    vs.sum ^ 2 ≤ (vs.length : ℚ) * (vs.map (fun x => x * x)).sum := by
  induction vs with
  | nil => simp
  | cons a t ih =>
    have hq : 0 ≤ (t.map (fun x => x * x)).sum := sum_sq_nonneg t
    simp only [List.map_cons, List.sum_cons, List.length_cons]
    push_cast
    rcases Nat.eq_zero_or_pos t.length with h0 | hpos
    · have ht : t = [] := List.length_eq_zero.mp h0
      subst ht
      simp only [List.sum_nil, List.map_nil, List.length_nil]
      push_cast
      nlinarith [sq_nonneg a]
    · have hn1 : (1 : ℚ) ≤ (t.length : ℚ) := by exact_mod_cast hpos
      have hn0 : (0 : ℚ) ≤ (t.length : ℚ) := by linarith
      have hD := sq_nonneg ((t.length : ℚ) * a - t.sum)
      have hA : 0 ≤ (t.length : ℚ) * (t.map (fun x => x * x)).sum - t.sum ^ 2 := by
        linarith
      have hnA : 0 ≤ (t.length : ℚ) *
          ((t.length : ℚ) * (t.map (fun x => x * x)).sum - t.sum ^ 2) :=
        mul_nonneg hn0 hA
      nlinarith [hD, hA, hnA, hq, hn1, hn0]

lemma sums_of_wellFormed (data : List Record)
    (h : ∀ r ∈ data, WellFormedRecord r) :
    sumCounts data = data.length ∧
      sumSquares data = ((data.map (fun r => r.2.1)).map (fun x => x * x)).sum := by
  induction data with
  | nil => simp [sumCounts, sumSquares]
  | cons r t ih =>
    have hr : WellFormedRecord r := h r (List.mem_cons_self r t)
    have ht := ih (fun x hx => h x (List.mem_cons_of_mem r hx))
    simp only [sumCounts, sumSquares, List.map_cons, List.sum_cons,
      List.length_cons] at ht ⊢
    refine ⟨?_, ?_⟩
    · rw [hr.1]
      push_cast
      rw [show ((t.map (fun r => r.1)).sum : ℤ) = (t.length : ℤ) from ht.1]
      ring
    · rw [hr.2, ht.2]

lemma sumScores_eq_map_sum (data : List Record) :
    sumScores data = (data.map (fun r => r.2.1)).sum := rfl

/-- Under exact arithmetic, the variance computed by `reducer` on a
non-empty list of well-formed records is non-negative. -/
lemma varianceOf_nonneg (data : List Record)
    (h : ∀ r ∈ data, WellFormedRecord r) (hne : data ≠ []) :
    0 ≤ varianceOf data := by
  obtain ⟨hc, hq⟩ := sums_of_wellFormed data h
  have hlen : 0 < data.length := List.length_pos.mpr hne
  have hlenQ : (0 : ℚ) < (data.length : ℚ) := by exact_mod_cast hlen
  have key := sq_sum_le_length_mul_sum_sq (data.map (fun r => r.2.1))
  rw [List.length_map] at key
  rw [varianceOf, meanOf, hc, hq, sumScores_eq_map_sum]
  push_cast
  rw [sub_nonneg, div_pow, div_le_div_iff (by positivity) hlenQ]
  nlinarith [key, hlenQ]

lemma sumCounts_of_wellFormed_ne_zero (data : List Record)
    (h : ∀ r ∈ data, WellFormedRecord r) (hne : data ≠ []) :
    sumCounts data ≠ 0 := by
  obtain ⟨hc, _⟩ := sums_of_wellFormed data h
  rw [hc]
  exact_mod_cast (List.length_pos.mpr hne).ne'

-- Permutation invariance of the accumulated sums.

lemma sumCounts_perm {l l' : List Record} (h : l.Perm l') :
    sumCounts l = sumCounts l' := by
  unfold sumCounts
  exact (h.map (fun r => r.1)).sum_eq

lemma sumScores_perm {l l' : List Record} (h : l.Perm l') :
    sumScores l = sumScores l' := by
  unfold sumScores
  exact (h.map (fun r => r.2.1)).sum_eq

lemma sumSquares_perm {l l' : List Record} (h : l.Perm l') :
    sumSquares l = sumSquares l' := by
  unfold sumSquares
  exact (h.map (fun r => r.2.2)).sum_eq

lemma reducer_perm {l l' : List Record} (h : l.Perm l') :
    reducer l = reducer l' := by
  unfold reducer
  rw [reducerAcc_eq_sums, reducerAcc_eq_sums,
    sumCounts_perm h, sumScores_perm h, sumSquares_perm h]

-- The orchestration: which errors carry a path, and how the map phase
-- behaves.

lemma mapper_fileNotFound_iff (fs : FileSys) (p q : String) :
    mapper fs p = .error (.fileNotFound q) ↔ q = p ∧ fs p = .missing := by
  unfold mapper
  cases h : fs p with
  | missing => simp [h, eq_comm]
  | unparseable => simp [h]
  | parsed info =>
    cases hl : info.lookup "movieIMDbRating" with
    | none => simp [h, hl]
    | some v => cases v <;> simp [h, hl]

lemma mapFiles_nil : mapFiles [] = .ok [] := rfl

lemma mapFiles_cons (f : String) (t : List String) :
    mapFiles (f :: t) = .error .typeError := rfl

lemma runPipeline_nil (fs : FileSys) : runPipeline fs [] = reducer [] := rfl

lemma runPipeline_cons (fs : FileSys) (f : String) (t : List String) :
    runPipeline fs (f :: t) = .error .typeError := rfl

lemma reducer_error_eq (data : List Record) (e : PyError)
    (h : reducer data = .error e) : e = .zeroDivisionError := by
  unfold reducer at h
  rcases eq_or_ne (reducerAcc data).1 0 with h0 | h0
  · simp only [h0, if_pos] at h
    exact (Except.error.inj h).symm
  · rw [if_neg h0] at h
    cases h

-- Claim theorems.

/-- C1: for every list of records `(c, v, v2)` whose counts sum to a
nonzero `n` and whose accumulated statistics give a non-negative variance
(the domain on which the spec's algorithm defines a pair), `reducer`
returns exactly the pair the spec's algorithm computes: `mean = S / n`
and `stddev = sqrt (Q / n - mean ^ 2)`. -/
theorem reducer_matches_spec_algorithm (data : List Record)
    (hn : sumCounts data ≠ 0) (hv : 0 ≤ varianceOf data) :
    reducer data = .ok ((specReduce data).1, ((specReduce data).2 : ℂ)) := by
  rw [reducer_eq_ok data hn, pyPowHalf_of_nonneg (by exact_mod_cast hv)]
  rfl

/-- C1 witness: the theorem applied to the singleton record `(1, 1, 1)`. -/
theorem reducer_matches_spec_algorithm_witness :
    sumCounts [((1 : ℤ), (1 : ℚ), (1 : ℚ))] ≠ 0 ∧
      0 ≤ varianceOf [((1 : ℤ), (1 : ℚ), (1 : ℚ))] ∧
      reducer [((1 : ℤ), (1 : ℚ), (1 : ℚ))] =
        .ok ((specReduce [((1 : ℤ), (1 : ℚ), (1 : ℚ))]).1,
          ((specReduce [((1 : ℤ), (1 : ℚ), (1 : ℚ))]).2 : ℂ)) :=
  ⟨by decide,
    by norm_num [varianceOf, meanOf, sumScores, sumCounts, sumSquares],
    reducer_matches_spec_algorithm _ (by decide)
      (by norm_num [varianceOf, meanOf, sumScores, sumCounts, sumSquares])⟩

/-- C2 counterexample: on the empty record list the program surfaces the
raw arithmetic fault `ZeroDivisionError` from `sum_score / n`; no
`EmptyInputError` exists anywhere in the program (the error type of the
embedding enumerates every exception the script can raise). -/
theorem reducer_empty_zero_division_cex :
    reducer [] = .error .zeroDivisionError := reducer_empty

/-- C2 (amended): whenever the accumulated count is zero — in particular
when the record list given to the reduce stage is empty — `reducer`
raises the raw `ZeroDivisionError` coming from `mean = sum_score / n`;
the program detects nothing and defines no distinct empty-input error. -/
theorem reducer_zero_count_zero_division (data : List Record)
    (h : sumCounts data = 0) :
    reducer data = .error .zeroDivisionError := by
  unfold reducer
  rw [reducerAcc_eq_sums]
  simp [h]

/-- C2 witness: the amended theorem applied to a non-empty list whose
counts sum to zero. -/
theorem reducer_zero_count_zero_division_witness :
    sumCounts [((0 : ℤ), (5 : ℚ), (25 : ℚ))] = 0 ∧
      reducer [((0 : ℤ), (5 : ℚ), (25 : ℚ))] = .error .zeroDivisionError :=
  ⟨by decide, reducer_zero_count_zero_division _ (by decide)⟩

/-- C3 counterexample: on the record list `[(1, 1.0, 0.0)]` the computed
variance is `-1`, and `reducer` neither clamps it to zero (the stddev
component is `i`, not `0`) nor fails with any error: it returns
normally with a complex stddev. -/
theorem reducer_no_clamp_no_error_cex :
    reducer [((1 : ℤ), (1 : ℚ), (0 : ℚ))] = .ok (1, Complex.I) ∧
      Complex.I ≠ 0 ∧
      ∀ e, reducer [((1 : ℤ), (1 : ℚ), (0 : ℚ))] ≠ .error e := by
  have hn : sumCounts [((1 : ℤ), (1 : ℚ), (0 : ℚ))] ≠ 0 := by decide
  have hv : varianceOf [((1 : ℤ), (1 : ℚ), (0 : ℚ))] = -1 := by
    norm_num [varianceOf, meanOf, sumScores, sumCounts, sumSquares]
  have hm : meanOf [((1 : ℤ), (1 : ℚ), (0 : ℚ))] = 1 := by
    norm_num [meanOf, sumScores, sumCounts]
  have h := reducer_eq_ok _ hn
  rw [hm, hv] at h
  rw [pyPowHalf_of_neg (by norm_num)] at h
  norm_num [Real.sqrt_one] at h
  exact ⟨h, Complex.I_ne_zero, by rw [h]; intro e hc; cases hc⟩

/-- C3 (amended): when the computed variance is negative, the
implementation neither clamps it to zero nor fails with a domain error
or assertion: `variance ** 0.5` evaluates to the complex number
`sqrt (-variance) * i` and `reducer` returns it as the stddev. -/
theorem reducer_negative_variance_complex (data : List Record)
    (hn : sumCounts data ≠ 0) (hv : varianceOf data < 0) :
    reducer data =
      .ok (meanOf data,
        ((Real.sqrt ((-varianceOf data : ℚ) : ℝ) : ℝ) : ℂ) * Complex.I) := by
  rw [reducer_eq_ok data hn, pyPowHalf_of_neg (by exact_mod_cast hv)]
  norm_num

/-- C3 witness: the amended theorem applied to the record `(1, 0, -1)`,
whose variance is `-1`. -/
theorem reducer_negative_variance_complex_witness :
    sumCounts [((1 : ℤ), (0 : ℚ), (-1 : ℚ))] ≠ 0 ∧
      varianceOf [((1 : ℤ), (0 : ℚ), (-1 : ℚ))] < 0 ∧
      reducer [((1 : ℤ), (0 : ℚ), (-1 : ℚ))] =
        .ok (meanOf [((1 : ℤ), (0 : ℚ), (-1 : ℚ))],
          ((Real.sqrt ((-varianceOf [((1 : ℤ), (0 : ℚ), (-1 : ℚ))] : ℚ) : ℝ) : ℝ) : ℂ)
            * Complex.I) :=
  ⟨by decide,
    by norm_num [varianceOf, meanOf, sumScores, sumCounts, sumSquares],
    reducer_negative_variance_complex _ (by decide)
      (by norm_num [varianceOf, meanOf, sumScores, sumCounts, sumSquares])⟩

/-- C4: for every non-empty list of records of the shape the mapper
produces — count `1` and squared value equal to the square of the
value — the stddev component `reducer` returns is a real number `≥ 0`. -/
theorem reducer_stddev_nonneg (data : List Record)
    (hwf : ∀ r ∈ data, WellFormedRecord r) (hne : data ≠ []) :
    ∃ s : ℝ, 0 ≤ s ∧ reducer data = .ok (meanOf data, (s : ℂ)) := by
  have hn := sumCounts_of_wellFormed_ne_zero data hwf hne
  have hv := varianceOf_nonneg data hwf hne
  refine ⟨Real.sqrt ((varianceOf data : ℚ) : ℝ), Real.sqrt_nonneg _, ?_⟩
  rw [reducer_eq_ok data hn, pyPowHalf_of_nonneg (by exact_mod_cast hv)]

/-- C4 witness: the theorem applied to the mapper-shaped record
`(1, 2, 4)`. -/
theorem reducer_stddev_nonneg_witness :
    (∀ r ∈ [((1 : ℤ), (2 : ℚ), (4 : ℚ))], WellFormedRecord r) ∧
      ([((1 : ℤ), (2 : ℚ), (4 : ℚ))] : List Record) ≠ [] ∧
      ∃ s : ℝ, 0 ≤ s ∧
        reducer [((1 : ℤ), (2 : ℚ), (4 : ℚ))] =
          .ok (meanOf [((1 : ℤ), (2 : ℚ), (4 : ℚ))], (s : ℂ)) :=
  ⟨by norm_num [WellFormedRecord], by simp,
    reducer_stddev_nonneg _ (by norm_num [WellFormedRecord]) (by simp)⟩

/-- C5: the reduce fold is order-independent — `reducer` returns the same
result on every permutation of its record list, so any completion order
of the parallel map stage yields the same `(mean, stddev)`. -/
theorem reducer_order_independent (l l' : List Record) (h : l.Perm l') :
    reducer l = reducer l' := reducer_perm h

/-- C5 witness: the theorem applied to a two-record list and its swap. -/
theorem reducer_order_independent_witness :
    ([((1 : ℤ), (2 : ℚ), (4 : ℚ)), ((1 : ℤ), (7 : ℚ), (49 : ℚ))] :
        List Record).Perm
        [((1 : ℤ), (7 : ℚ), (49 : ℚ)), ((1 : ℤ), (2 : ℚ), (4 : ℚ))] ∧
      reducer [((1 : ℤ), (2 : ℚ), (4 : ℚ)), ((1 : ℤ), (7 : ℚ), (49 : ℚ))] =
        reducer [((1 : ℤ), (7 : ℚ), (49 : ℚ)), ((1 : ℤ), (2 : ℚ), (4 : ℚ))] :=
  ⟨List.Perm.swap _ _ _,
    reducer_order_independent _ _ (List.Perm.swap _ _ _)⟩

/-- C6: for every document that exists, parses, and whose rating field
coerces to a float `v`, the mapper emits exactly the one record
`(1, v, v * v)`; and every record the mapper ever emits has count `1`
and squared value equal to the square of its value. -/
theorem mapper_emits_single_squared_record :
    (∀ (fs : FileSys) (path : String) (info : List (String × PyVal)) (v : ℚ),
        fs path = .parsed info →
        info.lookup "movieIMDbRating" = some (.coercible v) →
        mapper fs path = .ok (1, v, v * v)) ∧
      ∀ (fs : FileSys) (path : String) (r : Record),
        mapper fs path = .ok r → WellFormedRecord r := by
  constructor
  · intro fs path info v hp hl
    simp [mapper, hp, hl, pow_two]
  · intro fs path r h
    unfold mapper at h
    split at h
    · cases h
    · cases h
    · split at h
      · cases h
      · cases h
      · cases h
        exact ⟨rfl, by simp [pow_two]⟩

/-- C6 witness: the theorem applied to a file system holding one parsed
document whose rating is `3`. -/
theorem mapper_emits_single_squared_record_witness :
    ((fun _ => ratingDoc 3 : FileSys) "p"
        = .parsed [("movieIMDbRating", PyVal.coercible 3)]) ∧
      (([("movieIMDbRating", PyVal.coercible 3)] :
          List (String × PyVal)).lookup "movieIMDbRating"
        = some (PyVal.coercible 3)) ∧
      mapper (fun _ => ratingDoc 3) "p" = .ok (1, 3, (3 : ℚ) * 3) :=
  ⟨rfl, rfl,
    mapper_emits_single_squared_record.1 _ "p"
      [("movieIMDbRating", PyVal.coercible 3)] 3 rfl rfl⟩

/-- C7: refuted by the code — the pipeline never returns the textbook
result.  On the eight documents rated `[2, 4, 4, 4, 5, 5, 7, 9]`, and
already on a single document, the run raises
`TypeError: cannot pickle 'generator' object` while collecting the
worker results.  The reduce stage alone, applied to the records the
mapper's generators would yield, does compute the claimed `(5, 2)` —
and `(v, 0)` for a single value `v` — so the claim states the evident
intent and the code's orchestration is the slip. -/
theorem pipeline_textbook_crashes_before_reducing :
    runPipeline fs8 files8 = .error .typeError ∧
      runPipeline (fun _ => ratingDoc 3) ["p"] = .error .typeError ∧
      reducer records8 = .ok (5, ((2 : ℝ) : ℂ)) ∧
      ∀ v : ℚ, reducer [((1 : ℤ), v, v * v)] = .ok (v, 0) := by
  refine ⟨rfl, rfl, ?_, ?_⟩
  · have hn : sumCounts records8 ≠ 0 := by decide
    rw [reducer_eq_ok _ hn]
    have hmean : meanOf records8 = 5 := by
      norm_num [meanOf, sumScores, sumCounts, records8]
    have hvar : varianceOf records8 = 4 := by
      norm_num [varianceOf, meanOf, sumScores, sumCounts, sumSquares,
        records8]
    rw [hmean, hvar]
    rw [show ((4 : ℚ) : ℝ) = 4 by norm_num,
      pyPowHalf_of_nonneg (by norm_num : (0 : ℝ) ≤ 4)]
    rw [show (4 : ℝ) = 2 ^ 2 by norm_num,
      Real.sqrt_sq (by norm_num : (0 : ℝ) ≤ 2)]
  · intro v
    have hn : sumCounts [((1 : ℤ), v, v * v)] ≠ 0 := by simp [sumCounts]
    rw [reducer_eq_ok _ hn]
    have hmean : meanOf [((1 : ℤ), v, v * v)] = v := by
      simp [meanOf, sumScores, sumCounts]
    have hvar : varianceOf [((1 : ℤ), v, v * v)] = 0 := by
      simp [varianceOf, meanOf, sumScores, sumCounts, sumSquares, pow_two]
    rw [hmean, hvar]
    norm_num [pyPowHalf_of_nonneg]

/-- C8: the mapper fails if and only if the file is missing, unparseable,
lacking the `movieIMDbRating` field, or holding a non-coercible value
there; on every other input it succeeds with exactly one record (no
partial extraction). -/
theorem mapper_fails_iff_bad_input (fs : FileSys) (path : String) :
    ((∃ e, mapper fs path = .error e) ↔ badInput fs path) ∧
      (¬ badInput fs path → ∃ v, mapper fs path = .ok (1, v, v ^ 2)) := by
  unfold badInput
  cases hp : fs path with
  | missing =>
    refine ⟨⟨fun _ => Or.inl rfl,
      fun _ => ⟨.fileNotFound path, by simp [mapper, hp]⟩⟩,
      fun hno => absurd (Or.inl rfl) hno⟩
  | unparseable =>
    refine ⟨⟨fun _ => Or.inr (Or.inl rfl),
      fun _ => ⟨.jsonDecodeError, by simp [mapper, hp]⟩⟩,
      fun hno => absurd (Or.inr (Or.inl rfl)) hno⟩
  | parsed info =>
    cases hl : info.lookup "movieIMDbRating" with
    | none =>
      refine ⟨⟨fun _ => Or.inr (Or.inr ⟨info, rfl, Or.inl hl⟩),
        fun _ => ⟨.keyError "movieIMDbRating", by simp [mapper, hp, hl]⟩⟩,
        fun hno => absurd (Or.inr (Or.inr ⟨info, rfl, Or.inl hl⟩)) hno⟩
    | some v =>
      cases v with
      | nonCoercible =>
        refine ⟨⟨fun _ => Or.inr (Or.inr ⟨info, rfl, Or.inr hl⟩),
          fun _ => ⟨.valueError, by simp [mapper, hp, hl]⟩⟩,
          fun hno => absurd (Or.inr (Or.inr ⟨info, rfl, Or.inr hl⟩)) hno⟩
      | coercible s =>
        have hok : mapper fs path = .ok (1, s, s ^ 2) := by
          simp [mapper, hp, hl]
        refine ⟨⟨?_, ?_⟩, fun _ => ⟨s, hok⟩⟩
        · rintro ⟨e, he⟩
          rw [hok] at he
          cases he
        · rintro (h | h | ⟨info2, hi, h | h⟩)
          · cases h
          · cases h
          · cases hi
            rw [hl] at h
            cases h
          · cases hi
            rw [hl] at h
            cases h

/-- C8 witness: the theorem applied to a file system on which every path
is missing: the failure condition holds and the mapper indeed fails. -/
theorem mapper_fails_iff_bad_input_witness :
    badInput (fun _ => LoadResult.missing) "f" ∧
      ∃ e, mapper (fun _ => LoadResult.missing) "f" = .error e :=
  ⟨Or.inl rfl,
    (mapper_fails_iff_bad_input (fun _ => LoadResult.missing) "f").1.mpr
      (Or.inl rfl)⟩

/-- C9 counterexample: under `fs9` the input set `["good", "bad"]`
contains one malformed document (`bad` parses but lacks the rating
field) among otherwise-valid documents; the run does fail, but with
`TypeError: cannot pickle 'generator' object`, raised while collecting
the worker results before any file is opened — an error that
identifies no document at all, refuting the claim that the failure
names the specific offending document. -/
theorem run_error_unidentified_cex :
    runPipeline fs9 ["good", "bad"] = .error .typeError ∧
      ∀ p : String, ¬ errorNamesFile PyError.typeError p := by
  refine ⟨rfl, fun p h => ?_⟩
  simp [errorNamesFile] at h

/-- C9 (amended): every run over a non-empty file list — whether or not
any document is malformed, and regardless of the file system — fails
with the pickling `TypeError`, raised before any document is opened;
that error identifies no file, and no document-specific exception
(`FileNotFoundError`, `JSONDecodeError`, `KeyError`, `ValueError`)
ever propagates through the pool. -/
theorem run_fails_unidentified (fs : FileSys) (files : List String)
    (hne : files ≠ []) :
    runPipeline fs files = .error .typeError ∧
      ∀ p : String, ¬ errorNamesFile PyError.typeError p := by
  cases files with
  | nil => exact absurd rfl hne
  | cons f t =>
    refine ⟨rfl, fun p h => ?_⟩
    simp [errorNamesFile] at h

/-- C9 witness: the amended theorem applied to a single missing file —
even there the surfaced error is the pickling `TypeError`, not a
`FileNotFoundError` naming the file. -/
theorem run_fails_unidentified_witness :
    (["x"] : List String) ≠ [] ∧
      runPipeline (fun _ => LoadResult.missing) ["x"] = .error .typeError ∧
      ∀ p : String, ¬ errorNamesFile PyError.typeError p :=
  ⟨by simp,
    (run_fails_unidentified (fun _ => LoadResult.missing) ["x"] (by simp)).1,
    (run_fails_unidentified (fun _ => LoadResult.missing) ["x"] (by simp)).2⟩

/-- C10 (implicit): `variance ** 0.5` never raises — whenever the
accumulated count is nonzero the reducer returns normally; under the
mapper-shape precondition (count `1`, `value_squared = value * value`,
exact arithmetic) the negative-variance branch is unreachable; yet for
a record list violating that precondition, such as `[(1, 2.0, 0.0)]`,
the reducer returns normally with a non-real (purely imaginary) stddev
component instead of an error or a real number. -/
theorem variance_pow_half_total_and_unreachable :
    (∀ data : List Record, sumCounts data ≠ 0 → ∃ p, reducer data = .ok p) ∧
      (∀ data : List Record, (∀ r ∈ data, WellFormedRecord r) → data ≠ [] →
        0 ≤ varianceOf data) ∧
      reducer [((1 : ℤ), (2 : ℚ), (0 : ℚ))] =
        .ok (2, ((2 : ℝ) : ℂ) * Complex.I) ∧
      (((2 : ℝ) : ℂ) * Complex.I).im ≠ 0 := by
  refine ⟨fun data hn => ⟨_, reducer_eq_ok data hn⟩,
    fun data hwf hne => varianceOf_nonneg data hwf hne, ?_, by simp⟩
  have hn : sumCounts [((1 : ℤ), (2 : ℚ), (0 : ℚ))] ≠ 0 := by decide
  have hv : varianceOf [((1 : ℤ), (2 : ℚ), (0 : ℚ))] = -4 := by
    norm_num [varianceOf, meanOf, sumScores, sumCounts, sumSquares]
  have hm : meanOf [((1 : ℤ), (2 : ℚ), (0 : ℚ))] = 2 := by
    norm_num [meanOf, sumScores, sumCounts]
  have h := reducer_eq_ok _ hn
  rw [hm, hv] at h
  rw [pyPowHalf_of_neg (by norm_num)] at h
  rw [h]
  have h2 : Real.sqrt (-((-4 : ℚ) : ℝ)) = 2 := by
    rw [show -((-4 : ℚ) : ℝ) = 2 ^ 2 by norm_num]
    exact Real.sqrt_sq (by norm_num)
  rw [h2]

/-- C10 witness: the two universally quantified parts applied to concrete
record lists. -/
theorem variance_pow_half_total_and_unreachable_witness :
    sumCounts [((1 : ℤ), (4 : ℚ), (0 : ℚ))] ≠ 0 ∧
      (∃ p, reducer [((1 : ℤ), (4 : ℚ), (0 : ℚ))] = .ok p) ∧
      (∀ r ∈ [((1 : ℤ), (1 : ℚ), (1 : ℚ))], WellFormedRecord r) ∧
      ([((1 : ℤ), (1 : ℚ), (1 : ℚ))] : List Record) ≠ [] ∧
      0 ≤ varianceOf [((1 : ℤ), (1 : ℚ), (1 : ℚ))] :=
  ⟨by decide,
    variance_pow_half_total_and_unreachable.1 _ (by decide),
    by norm_num [WellFormedRecord],
    by simp,
    variance_pow_half_total_and_unreachable.2.1 _
      (by norm_num [WellFormedRecord]) (by simp)⟩
